import Mathlib

/-!
Verification of the todo CRUD service in `src/scripts/backend-main.py`
(FastAPI + SQLAlchemy over SQLite).

The embedding models:
  * the stored row type `TodoDB` (SQLite columns: `description` and
    `completed` are nullable columns, `title` is `nullable=False`),
  * the response model `Todo` (pydantic: `description : str`,
    `completed : bool` — serializing a row with a NULL in those columns
    fails response validation, which FastAPI surfaces as a server failure),
  * the five handlers `get_todos`, `get_todo`, `create_todo`,
    `update_todo`, `delete_todo`, each returning the response, the new
    table state, and the list of storage accesses (reads/writes) the
    handler performed, in order.

Timestamps are `Nat` values; `datetime.utcnow()` becomes an explicit
`now` argument.  Clock monotonicity across calls is a hypothesis where a
claim needs it.
-/

namespace TodoApp

/-- Whitespace as recognized by Python's `str.strip()` (the ASCII part:
space, tab, newline, carriage return, vertical tab, form feed). -/
def isSpace (c : Char) : Bool :=
  c = ' ' || c = '\t' || c = '\n' || c = '\r' ||
  c = Char.ofNat 11 || c = Char.ofNat 12

/-- Python's `str.strip()`: drop leading and trailing whitespace. -/
def strip (s : String) : String :=
  ⟨(((s.data.dropWhile isSpace).reverse.dropWhile isSpace).reverse)⟩

/-- A stored row of the `todos` table.  `description` and `completed` are
nullable columns (`Column(String, default="")`, `Column(Boolean,
default=False)` with no `nullable=False`), so they are `Option`s here;
`title` is `nullable=False` and the handlers never write NULL into it. -/
structure TodoDB where
  id : Nat
  title : String
  description : Option String
  completed : Option Bool
  created_at : Nat
  updated_at : Nat
deriving DecidableEq, Repr

/-- The pydantic response model `Todo`: all fields required and
non-nullable (`description : str`, `completed : bool`). -/
structure Todo where
  id : Nat
  title : String
  description : String
  completed : Bool
  created_at : Nat
  updated_at : Nat
deriving DecidableEq, Repr

/-- FastAPI validates each handler's return value against the
`response_model=Todo`; a row whose `description` or `completed` is NULL
fails that validation (pydantic rejects `None` for `str` / `bool`). -/
def TodoDB.toTodo (r : TodoDB) : Option Todo :=
  match r.description, r.completed with
  | some d, some c =>
      some { id := r.id, title := r.title, description := d, completed := c,
             created_at := r.created_at, updated_at := r.updated_at }
  | _, _ => none

/-- The pydantic request model `TodoCreate`: `title : str` (required),
`description : Optional[str] = ""` — an explicit JSON `null` arrives as
`none`, an omitted field as the default `some ""`. -/
structure TodoCreate where
  title : String
  description : Option String := some ""
deriving DecidableEq, Repr

/-- The pydantic request model `TodoUpdate` combined with
`dict(exclude_unset=True)`: the outer `Option` is "was the field present
in the request", the inner one is "was it JSON `null`". -/
structure TodoUpdate where
  title : Option (Option String) := none
  description : Option (Option String) := none
  completed : Option (Option Bool) := none
deriving DecidableEq, Repr

/-- Response classes of the handler layer: 200 with a `Todo` body, 200
with a list body, the delete confirmation message, 400, 404, 500. -/
inductive Resp where
  | ok (t : Todo)
  | okList (ts : List Todo)
  | deleted
  | badRequest
  | notFound
  | serverFailure
deriving DecidableEq, Repr

/-- A storage access performed by a handler (`db.query`/`db.refresh`
are reads, `db.commit` of an insert/update/delete is a write). -/
inductive Event where
  | read
  | write
deriving DecidableEq, Repr

/-- The `todos` table. -/
abbrev State := List TodoDB

/-- `db.query(TodoDB).filter(TodoDB.id == todo_id).first()`. -/
def findTodo (db : State) (todo_id : Nat) : Option TodoDB :=
  db.find? (fun r => r.id == todo_id)

/-- Largest id currently in the table (0 when empty). -/
def maxId (db : State) : Nat :=
  db.foldr (fun r m => max r.id m) 0

/-- Modelled from the storage engine the source delegates to: SQLite
assigns an `INTEGER PRIMARY KEY` declared without `AUTOINCREMENT`
(`Column(Integer, primary_key=True)`) as one more than the largest rowid
currently in the table, so ids of deleted rows can be handed out again. -/
def nextId (db : State) : Nat :=
  maxId db + 1

/-- `todo.description.strip() if todo.description else ""` — Python
truthiness: both `None` and `""` are falsy. -/
def createDesc (d : Option String) : String :=
  match d with
  | some s => if s = "" then "" else strip s
  | none => ""

/-- `GET /todos`. -/
def get_todos (db : State) : Resp × State × List Event :=
  match db.mapM TodoDB.toTodo with
  | some ts => (Resp.okList ts, db, [Event.read])
  | none => (Resp.serverFailure, db, [Event.read])

/-- `GET /todos/{todo_id}`. -/
def get_todo (db : State) (todo_id : Nat) : Resp × State × List Event :=
  match findTodo db todo_id with
  | none => (Resp.notFound, db, [Event.read])
  | some r =>
    match r.toTodo with
    | some t => (Resp.ok t, db, [Event.read])
    | none => (Resp.serverFailure, db, [Event.read])

/-- The row a `POST /todos` insert produces: id from the store,
`completed` defaulting to false, and each timestamp filled in by its own
column default — the insert evaluates `default=datetime.utcnow` for
`created_at` and for `updated_at` by two separate calls, so the row
carries two evaluation instants `nowC` and `nowU`, which the code does
not force to be equal. -/
def newRow (db : State) (todo : TodoCreate) (nowC nowU : Nat) : TodoDB :=
  { id := nextId db, title := strip todo.title,
    description := some (createDesc todo.description),
    completed := some false, created_at := nowC, updated_at := nowU }

/-- `POST /todos`: reject an empty-after-strip title before any storage
access; otherwise insert a fresh row (see `newRow`), commit, refresh,
return it. -/
def create_todo (db : State) (todo : TodoCreate) (nowC nowU : Nat) :
    Resp × State × List Event :=
  if strip todo.title = "" then
    (Resp.badRequest, db, [])
  else
    match (newRow db todo nowC nowU).toTodo with
    | some t =>
      (Resp.ok t, db ++ [newRow db todo nowC nowU], [Event.write, Event.read])
    | none =>
      (Resp.serverFailure, db ++ [newRow db todo nowC nowU],
       [Event.write, Event.read])

/-- The `for field, value in update_data.items()` loop: strings are
stripped, anything else (including an explicit `null`) is assigned
as-is.  The guard in `update_todo` means this is never reached with
`title = some none`. -/
def applyFields (rec : TodoDB) (u : TodoUpdate) : TodoDB :=
  let r1 := match u.title with
    | some (some t) => { rec with title := strip t }
    | _ => rec
  let r2 := match u.description with
    | some (some d) => { r1 with description := some (strip d) }
    | some none => { r1 with description := none }
    | none => r1
  match u.completed with
  | some c => { r2 with completed := c }
  | none => r2

/-- The row after a committed update: the supplied fields applied, then
`db_todo.updated_at = datetime.utcnow()`. -/
def updatedRow (rec : TodoDB) (u : TodoUpdate) (now : Nat) : TodoDB :=
  { applyFields rec u with updated_at := now }

/-- Commit of a successful update: the queried row is mutated in place
and the transaction committed; FastAPI then validates the row against
`Todo`, and a NULL `description`/`completed` makes that fail with 500
even though the commit already happened. -/
def commitUpdate (db : State) (todo_id : Nat) (rec : TodoDB)
    (u : TodoUpdate) (now : Nat) : Resp × State × List Event :=
  match (updatedRow rec u now).toTodo with
  | some t =>
    (Resp.ok t,
     db.map (fun r => if r.id == todo_id then updatedRow rec u now else r),
     [Event.read, Event.write, Event.read])
  | none =>
    (Resp.serverFailure,
     db.map (fun r => if r.id == todo_id then updatedRow rec u now else r),
     [Event.read, Event.write, Event.read])

/-- `PUT /todos/{todo_id}`: look the row up first (404 when absent);
then `if "title" in update_data and not update_data["title"].strip()` —
on an explicit `title: null` the `.strip()` raises `AttributeError`,
which the generic handler turns into a rollback and a 500; an
empty-after-strip title is a 400; otherwise apply the supplied fields,
refresh `updated_at`, commit. -/
def update_todo (db : State) (todo_id : Nat) (u : TodoUpdate) (now : Nat) :
    Resp × State × List Event :=
  match findTodo db todo_id with
  | none => (Resp.notFound, db, [Event.read])
  | some rec =>
    match u.title with
    | some none => (Resp.serverFailure, db, [Event.read])
    | some (some t) =>
      if strip t = "" then (Resp.badRequest, db, [Event.read])
      else commitUpdate db todo_id rec u now
    | none => commitUpdate db todo_id rec u now

/-- `DELETE /todos/{todo_id}`. -/
def delete_todo (db : State) (todo_id : Nat) : Resp × State × List Event :=
  match findTodo db todo_id with
  | none => (Resp.notFound, db, [Event.read])
  | some _ =>
    (Resp.deleted, db.filter (fun r => !(r.id == todo_id)),
     [Event.read, Event.write])

/-! ### Helper lemmas -/

lemma mem_le_maxId : ∀ {db : State} {r : TodoDB}, r ∈ db → r.id ≤ maxId db := by
  intro db
  induction db with
  | nil => intro r h; cases h
  | cons a t ih =>
    intro r h
    rcases List.mem_cons.mp h with h' | h'
    · subst h'; exact le_max_left _ _
    · exact le_trans (ih h') (le_max_right _ _)

lemma lt_nextId {db : State} {r : TodoDB} (h : r ∈ db) : r.id < nextId db :=
  Nat.lt_succ_of_le (mem_le_maxId h)

lemma find?_append_of_none {α : Type} (p : α → Bool) :
    ∀ (l₁ l₂ : List α), (∀ a ∈ l₁, p a = false) →
      (l₁ ++ l₂).find? p = l₂.find? p := by
  intro l₁
  induction l₁ with
  | nil => intro l₂ h; rfl
  | cons a t ih =>
    intro l₂ h
    have ha : p a = false := h a (List.mem_cons_self _ _)
    simp only [List.cons_append, List.find?, ha]
    exact ih l₂ (fun x hx => h x (List.mem_cons_of_mem _ hx))

lemma findTodo_append_newRow (db : State) (todo : TodoCreate) (nowC nowU : Nat) :
    findTodo (db ++ [newRow db todo nowC nowU]) (nextId db)
      = some (newRow db todo nowC nowU) := by
  unfold findTodo
  rw [find?_append_of_none]
  · simp [List.find?, newRow]
  · intro r hr
    simpa using Nat.ne_of_lt (lt_nextId hr)

lemma findTodo_id {db : State} {tid : Nat} {rec : TodoDB}
    (h : findTodo db tid = some rec) : rec.id = tid := by
  simpa using List.find?_some h

lemma find?_replace : ∀ {db : State} {tid : Nat} {rec : TodoDB} (r' : TodoDB),
    findTodo db tid = some rec → r'.id = tid →
    findTodo (db.map fun r => if r.id == tid then r' else r) tid = some r' := by
  intro db
  induction db with
  | nil => intro tid rec r' h _; simp [findTodo] at h
  | cons a t ih =>
    intro tid rec r' h h'
    by_cases ha : a.id = tid
    · simp [findTodo, List.find?, ha, h']
    · have hb : (a.id == tid) = false := by simpa using ha
      have h2 : findTodo t tid = some rec := by
        simpa [findTodo, List.find?, hb] using h
      simpa [findTodo, List.find?, hb] using ih r' h2 h'

lemma create_todo_of_valid (db : State) (todo : TodoCreate) (nowC nowU : Nat)
    (h : strip todo.title ≠ "") :
    create_todo db todo nowC nowU =
      (Resp.ok { id := nextId db, title := strip todo.title,
                 description := createDesc todo.description, completed := false,
                 created_at := nowC, updated_at := nowU },
       db ++ [newRow db todo nowC nowU], [Event.write, Event.read]) := by
  unfold create_todo
  rw [if_neg h]
  rfl

lemma commitUpdate_state (db : State) (tid : Nat) (rec : TodoDB)
    (u : TodoUpdate) (now : Nat) :
    (commitUpdate db tid rec u now).2.1
      = db.map (fun r => if r.id == tid then updatedRow rec u now else r) := by
  cases hx : (updatedRow rec u now).toTodo <;> simp [commitUpdate, hx]

lemma commitUpdate_ne_badRequest (db : State) (tid : Nat) (rec : TodoDB)
    (u : TodoUpdate) (now : Nat) :
    (commitUpdate db tid rec u now).1 ≠ Resp.badRequest := by
  cases hx : (updatedRow rec u now).toTodo <;> simp [commitUpdate, hx]

lemma applyFields_id (rec : TodoDB) (u : TodoUpdate) :
    (applyFields rec u).id = rec.id := by
  unfold applyFields
  dsimp only
  split <;> split <;> split <;> rfl

lemma createDesc_eq_strip (s : String) : createDesc (some s) = strip s := by
  by_cases h : s = ""
  · subst h; rfl
  · simp [createDesc, h]

/-- The ids currently stored in the table. -/
def ids (db : State) : List Nat := db.map (fun r => r.id)

lemma ids_replace : ∀ {db : State} {tid : Nat} (r' : TodoDB), r'.id = tid →
    ids (db.map fun r => if r.id == tid then r' else r) = ids db := by
  intro db
  induction db with
  | nil => intro tid r' _; rfl
  | cons a t ih =>
    intro tid r' h'
    by_cases ha : a.id = tid
    · simp only [ids, List.map] at *
      have : (a.id == tid) = true := by simpa using ha
      simp only [this, if_true]
      rw [h', ha]
      exact congrArg _ (ih r' h')
    · have hb : (a.id == tid) = false := by simpa using ha
      simp only [ids, List.map, hb, if_false] at *
      exact congrArg _ (ih r' h')

/-! ### Claim theorems -/

/-- A sample stored row used to instantiate witnesses. -/
def row0 : TodoDB :=
  { id := 1, title := "a", description := some "", completed := some false,
    created_at := 0, updated_at := 0 }

/-- A sample one-row table used to instantiate witnesses. -/
def db0 : State := [row0]

/-- C1: for every valid (non-empty-after-trimming) title and every
description, `create` followed by `getById` on the id of the returned
record yields exactly the record `create` returned (same id, title,
description, completed, created_at, updated_at). -/
theorem C1_create_then_get (db : State) (todo : TodoCreate) (nowC nowU : Nat)
    (h : strip todo.title ≠ "") :
    ∃ t : Todo,
      (create_todo db todo nowC nowU).1 = Resp.ok t ∧
      (get_todo (create_todo db todo nowC nowU).2.1 t.id).1 = Resp.ok t := by
  refine ⟨{ id := nextId db, title := strip todo.title,
            description := createDesc todo.description, completed := false,
            created_at := nowC, updated_at := nowU }, ?_, ?_⟩
  · rw [create_todo_of_valid db todo nowC nowU h]
  · rw [create_todo_of_valid db todo nowC nowU h]
    dsimp only
    unfold get_todo
    rw [findTodo_append_newRow]
    rfl

/-- Witness for C1 at a concrete input. -/
theorem C1_create_then_get_witness :
    ∃ t : Todo,
      (create_todo [] ⟨"a", some ""⟩ 0 1).1 = Resp.ok t ∧
      (get_todo (create_todo [] ⟨"a", some ""⟩ 0 1).2.1 t.id).1 = Resp.ok t :=
  C1_create_then_get [] ⟨"a", some ""⟩ 0 1 (by decide)

/-- C2 as stated is false: an empty-title update on an existing row is
rejected with a 400, but a store read (the id lookup) has already
happened before the validation check, so the access log of the rejected
request is not empty. -/
theorem C2_counterexample :
    update_todo [{ id := 1, title := "a", description := some "",
                   completed := some false, created_at := 0, updated_at := 0 }] 1
        ⟨some (some ""), none, none⟩ 5
      = (Resp.badRequest,
         [{ id := 1, title := "a", description := some "", completed := some false,
            created_at := 0, updated_at := 0 }],
         [Event.read]) ∧
    ([Event.read] : List Event) ≠ [] := by decide

/-- C2 (amended): on create, a blank title is rejected with BadInput
before any storage access (empty access log, store untouched); on
update, whenever BadInput is reported the only storage access that
preceded it was the single id-lookup read — no store write happened and
the store is unchanged. -/
theorem C2_amended_validation (db : State) (todo : TodoCreate)
    (tid nowC nowU now : Nat)
    (u : TodoUpdate) (hc : strip todo.title = "")
    (hu : (update_todo db tid u now).1 = Resp.badRequest) :
    create_todo db todo nowC nowU = (Resp.badRequest, db, []) ∧
    (update_todo db tid u now).2 = (db, [Event.read]) := by
  constructor
  · simp [create_todo, hc]
  · cases hfx : findTodo db tid with
    | none => simp [update_todo, hfx] at hu
    | some rec =>
      cases htx : u.title with
      | none =>
        exfalso
        simp only [update_todo, hfx, htx] at hu
        exact commitUpdate_ne_badRequest db tid rec u now hu
      | some o =>
        cases o with
        | none => simp [update_todo, hfx, htx] at hu
        | some t =>
          by_cases hb : strip t = ""
          · simp [update_todo, hfx, htx, hb]
          · exfalso
            simp only [update_todo, hfx, htx, if_neg hb] at hu
            exact commitUpdate_ne_badRequest db tid rec u now hu

/-- Witness for the amended C2 at a concrete input. -/
theorem C2_amended_validation_witness :
    create_todo db0 ⟨" ", some ""⟩ 9 10 = (Resp.badRequest, db0, []) ∧
    (update_todo db0 1 ⟨some (some " "), none, none⟩ 5).2 = (db0, [Event.read]) :=
  C2_amended_validation db0 ⟨" ", some ""⟩ 1 9 10 5 ⟨some (some " "), none, none⟩
    (by decide) (by decide)

/-- C3 as stated is false: the store hands out ids as largest current
id plus one, so after the record with id 1 is deleted, a later-created
record receives id 1 again — the id is reused. -/
theorem C3_counterexample :
    (create_todo [] ⟨"a", some ""⟩ 0 0).1
        = Resp.ok { id := 1, title := "a", description := "", completed := false,
                    created_at := 0, updated_at := 0 } ∧
    (create_todo (delete_todo (create_todo [] ⟨"a", some ""⟩ 0 0).2.1 1).2.1
        ⟨"b", some ""⟩ 1 1).1
      = Resp.ok { id := 1, title := "b", description := "", completed := false,
                  created_at := 1, updated_at := 1 } := by decide

/-- C3 (amended): at any moment no two records in the store share an
id — a freshly assigned id differs from every stored id, and every
operation preserves distinctness of stored ids — but an id may be
reused for a record created after the record holding the largest id was
deleted. -/
theorem C3_ids_distinct (db : State) (todo : TodoCreate) (tid nowC nowU now : Nat)
    (u : TodoUpdate) (h : (ids db).Nodup) :
    (∀ r ∈ db, r.id ≠ nextId db) ∧
    (ids (create_todo db todo nowC nowU).2.1).Nodup ∧
    (ids (update_todo db tid u now).2.1).Nodup ∧
    (ids (delete_todo db tid).2.1).Nodup := by
  refine ⟨fun r hr => Nat.ne_of_lt (lt_nextId hr), ?_, ?_, ?_⟩
  · by_cases hc : strip todo.title = ""
    · simpa [create_todo, hc] using h
    · rw [create_todo_of_valid db todo nowC nowU hc]
      have heq : ids (db ++ [newRow db todo nowC nowU]) = ids db ++ [nextId db] := by
        simp [ids, newRow]
      have hnotmem : nextId db ∉ ids db := by
        intro hmem
        rcases List.mem_map.mp hmem with ⟨r, hr, hid⟩
        exact Nat.ne_of_lt (lt_nextId hr) hid
      show (ids (db ++ [newRow db todo nowC nowU])).Nodup
      rw [heq]
      simp [List.nodup_append, h, hnotmem]
  · cases hfx : findTodo db tid with
    | none => simpa [update_todo, hfx] using h
    | some rec =>
      have hid : (updatedRow rec u now).id = tid := by
        simp [updatedRow, applyFields_id, findTodo_id hfx]
      cases htx : u.title with
      | none =>
        simp only [update_todo, hfx, htx]
        rw [commitUpdate_state, ids_replace _ hid]
        exact h
      | some o =>
        cases o with
        | none => simpa [update_todo, hfx, htx] using h
        | some t =>
          by_cases hb : strip t = ""
          · simpa [update_todo, hfx, htx, hb] using h
          · simp only [update_todo, hfx, htx, if_neg hb]
            rw [commitUpdate_state, ids_replace _ hid]
            exact h
  · cases hfx : findTodo db tid with
    | none => simpa [delete_todo, hfx] using h
    | some rec =>
      simp only [delete_todo, hfx]
      have hsub : List.Sublist (ids (db.filter fun r => !(r.id == tid))) (ids db) :=
        List.Sublist.map _ (List.filter_sublist db)
      exact List.Nodup.sublist hsub h

/-- Witness for the amended C3 at a concrete input. -/
theorem C3_ids_distinct_witness :
    (∀ r ∈ db0, r.id ≠ nextId db0) ∧
    (ids (create_todo db0 ⟨"c", some ""⟩ 3 4).2.1).Nodup ∧
    (ids (update_todo db0 1 ⟨none, none, none⟩ 3).2.1).Nodup ∧
    (ids (delete_todo db0 1).2.1).Nodup :=
  C3_ids_distinct db0 ⟨"c", some ""⟩ 1 3 4 3 ⟨none, none, none⟩ (by decide)

/-- C4: updating an existing row with an empty partial record leaves
title, description and completed (and id, created_at) unchanged, and
sets updated_at to the current time, which is at least its prior value
whenever the clock has not gone backwards. -/
theorem C4_empty_partial_update (db : State) (tid now : Nat) (rec : TodoDB)
    (hf : findTodo db tid = some rec) (hmono : rec.updated_at ≤ now) :
    findTodo (update_todo db tid ⟨none, none, none⟩ now).2.1 tid
        = some { rec with updated_at := now } ∧
    rec.updated_at ≤ ({ rec with updated_at := now } : TodoDB).updated_at := by
  refine ⟨?_, hmono⟩
  have hid : (updatedRow rec ⟨none, none, none⟩ now).id = tid := by
    simp [updatedRow, applyFields_id, findTodo_id hf]
  simp only [update_todo, hf]
  rw [commitUpdate_state]
  have hrw : updatedRow rec ⟨none, none, none⟩ now = { rec with updated_at := now } := rfl
  rw [← hrw]
  exact find?_replace _ hf hid

/-- Witness for C4 at a concrete input. -/
theorem C4_empty_partial_update_witness :
    findTodo (update_todo db0 1 ⟨none, none, none⟩ 5).2.1 1
        = some { row0 with updated_at := 5 } ∧
    row0.updated_at ≤ ({ row0 with updated_at := 5 } : TodoDB).updated_at :=
  C4_empty_partial_update db0 1 5 row0 (by decide) (by decide)

/-- C5: an update of an existing row whose supplied title is empty or
whitespace-only after trimming yields BadInput and leaves the whole
store — the row included, its updated_at included — unchanged. -/
theorem C5_blank_title_update (db : State) (tid now : Nat) (u : TodoUpdate)
    (t : String) (rec : TodoDB) (hf : findTodo db tid = some rec)
    (ht : u.title = some (some t)) (hb : strip t = "") :
    update_todo db tid u now = (Resp.badRequest, db, [Event.read]) := by
  simp [update_todo, hf, ht, hb]

/-- Witness for C5 at a concrete input. -/
theorem C5_blank_title_update_witness :
    update_todo db0 1 ⟨some (some " "), none, none⟩ 5
      = (Resp.badRequest, db0, [Event.read]) :=
  C5_blank_title_update db0 1 5 ⟨some (some " "), none, none⟩ " " row0
    (by decide) rfl (by decide)

/-- C6: creating with an empty or whitespace-only title yields BadInput
and no record; a created row stores the trimmed title and the trimmed
description, and an update stores the trimmed title and description it
was supplied. -/
theorem C6_trim_and_reject (db : State) (d : Option String)
    (nowC nowU now tid : Nat)
    (todo : TodoCreate) (s t : String) (rec : TodoDB)
    (hne : strip todo.title ≠ "") (hf : findTodo db tid = some rec) :
    create_todo db ⟨"", d⟩ nowC nowU = (Resp.badRequest, db, []) ∧
    create_todo db ⟨" ", d⟩ nowC nowU = (Resp.badRequest, db, []) ∧
    (newRow db todo nowC nowU).title = strip todo.title ∧
    (∀ s', todo.description = some s' →
      (newRow db todo nowC nowU).description = some (strip s')) ∧
    findTodo (create_todo db todo nowC nowU).2.1 (nextId db)
        = some (newRow db todo nowC nowU) ∧
    (updatedRow rec ⟨some (some t), some (some s), none⟩ now).title = strip t ∧
    (updatedRow rec ⟨some (some t), some (some s), none⟩ now).description
        = some (strip s) ∧
    (strip t ≠ "" →
      findTodo (update_todo db tid ⟨some (some t), some (some s), none⟩ now).2.1 tid
        = some (updatedRow rec ⟨some (some t), some (some s), none⟩ now)) := by
  refine ⟨rfl, rfl, rfl, ?_, ?_, rfl, rfl, ?_⟩
  · intro s' hs'
    simp [newRow, hs', createDesc_eq_strip]
  · rw [create_todo_of_valid db todo nowC nowU hne]
    exact findTodo_append_newRow db todo nowC nowU
  · intro hb
    have hid : (updatedRow rec ⟨some (some t), some (some s), none⟩ now).id = tid := by
      simp [updatedRow, applyFields_id, findTodo_id hf]
    simp only [update_todo, hf, if_neg hb]
    rw [commitUpdate_state]
    exact find?_replace _ hf hid

/-- Witness for C6 at concrete inputs, with " Buy milk " stored as
"Buy milk". -/
theorem C6_trim_and_reject_witness :
    create_todo db0 ⟨"", some ""⟩ 7 8 = (Resp.badRequest, db0, []) ∧
    create_todo db0 ⟨" ", some ""⟩ 7 8 = (Resp.badRequest, db0, []) ∧
    (newRow db0 ⟨" Buy milk ", some " x "⟩ 7 8).title = strip " Buy milk " ∧
    (∀ s', (⟨" Buy milk ", some " x "⟩ : TodoCreate).description = some s' →
      (newRow db0 ⟨" Buy milk ", some " x "⟩ 7 8).description = some (strip s')) ∧
    findTodo (create_todo db0 ⟨" Buy milk ", some " x "⟩ 7 8).2.1 (nextId db0)
        = some (newRow db0 ⟨" Buy milk ", some " x "⟩ 7 8) ∧
    (updatedRow row0 ⟨some (some " T "), some (some " d "), none⟩ 7).title
        = strip " T " ∧
    (updatedRow row0 ⟨some (some " T "), some (some " d "), none⟩ 7).description
        = some (strip " d ") ∧
    (strip " T " ≠ "" →
      findTodo (update_todo db0 1 ⟨some (some " T "), some (some " d "), none⟩ 7).2.1 1
        = some (updatedRow row0 ⟨some (some " T "), some (some " d "), none⟩ 7)) :=
  C6_trim_and_reject db0 (some "") 7 8 7 1 ⟨" Buy milk ", some " x "⟩ " d " " T "
    row0 (by decide) (by decide)

/-- C7: getById, update and delete on an id absent from the store each
yield NotFound, and NotFound is a different response class from
server-failure. -/
theorem C7_not_found_distinct (db : State) (tid now : Nat) (u : TodoUpdate)
    (h : findTodo db tid = none) :
    (get_todo db tid).1 = Resp.notFound ∧
    (update_todo db tid u now).1 = Resp.notFound ∧
    (delete_todo db tid).1 = Resp.notFound ∧
    Resp.notFound ≠ Resp.serverFailure := by
  refine ⟨?_, ?_, ?_, by simp⟩ <;> simp [get_todo, update_todo, delete_todo, h]

/-- Witness for C7 at a concrete input. -/
theorem C7_not_found_distinct_witness :
    (get_todo db0 2).1 = Resp.notFound ∧
    (update_todo db0 2 ⟨none, none, none⟩ 5).1 = Resp.notFound ∧
    (delete_todo db0 2).1 = Resp.notFound ∧
    Resp.notFound ≠ Resp.serverFailure :=
  C7_not_found_distinct db0 2 5 ⟨none, none, none⟩ (by decide)

/-- C8 as stated is false on the code: the insert fills `created_at`
and `updated_at` by two separate `datetime.utcnow()` default
evaluations, so when those evaluations return different instants the
freshly created record comes back with created_at ≠ updated_at. -/
theorem C8_counterexample :
    (create_todo [] ⟨"Write spec", some ""⟩ 0 1).1
      = Resp.ok { id := 1, title := "Write spec", description := "",
                  completed := false, created_at := 0, updated_at := 1 } ∧
    (0 : Nat) ≠ 1 := by decide

/-- C8 (amended): immediately after create the returned record has
completed = false and carries the two utcnow evaluations of the insert
as created_at and updated_at — equal exactly when those two evaluations
coincide; a later update with completed set to true keeps id, title and
description, sets completed, and its updated_at is strictly later than
before (the clock having strictly advanced). -/
theorem C8_end_to_end (db : State) (todo : TodoCreate) (nowC nowU now2 : Nat)
    (hne : strip todo.title ≠ "") (hlt : nowU < now2) :
    ∃ t : Todo,
      (create_todo db todo nowC nowU).1 = Resp.ok t ∧
      t.created_at = nowC ∧
      t.updated_at = nowU ∧
      (nowC = nowU → t.created_at = t.updated_at) ∧
      t.completed = false ∧
      (update_todo (create_todo db todo nowC nowU).2.1 t.id
          ⟨none, none, some (some true)⟩ now2).1
        = Resp.ok { t with completed := true, updated_at := now2 } ∧
      t.updated_at < now2 := by
  refine ⟨{ id := nextId db, title := strip todo.title,
            description := createDesc todo.description, completed := false,
            created_at := nowC, updated_at := nowU },
          ?_, rfl, rfl, fun hcu => hcu, rfl, ?_, hlt⟩
  · rw [create_todo_of_valid db todo nowC nowU hne]
  · rw [create_todo_of_valid db todo nowC nowU hne]
    dsimp only
    simp only [update_todo, findTodo_append_newRow]
    rfl

/-- Witness for the amended C8 at the spec's own scenario, with the two
insert-time default evaluations distinct. -/
theorem C8_end_to_end_witness :
    ∃ t : Todo,
      (create_todo [] ⟨"Write spec", some ""⟩ 3 4).1 = Resp.ok t ∧
      t.created_at = 3 ∧
      t.updated_at = 4 ∧
      ((3 : Nat) = 4 → t.created_at = t.updated_at) ∧
      t.completed = false ∧
      (update_todo (create_todo [] ⟨"Write spec", some ""⟩ 3 4).2.1 t.id
          ⟨none, none, some (some true)⟩ 9).1
        = Resp.ok { t with completed := true, updated_at := 9 } ∧
      t.updated_at < 9 :=
  C8_end_to_end [] ⟨"Write spec", some ""⟩ 3 4 9 (by decide) (by decide)

/-- C9: an update of an existing row whose title field is present but
null yields a server-failure response — the None.strip() exception —
not a bad request, and the rollback leaves the store unchanged. -/
theorem C9_null_title_server_failure (db : State) (tid now : Nat) (u : TodoUpdate)
    (rec : TodoDB) (hf : findTodo db tid = some rec) (ht : u.title = some none) :
    update_todo db tid u now = (Resp.serverFailure, db, [Event.read]) := by
  simp [update_todo, hf, ht]

/-- Witness for C9 at a concrete input. -/
theorem C9_null_title_server_failure_witness :
    update_todo db0 1 ⟨some none, none, none⟩ 5
      = (Resp.serverFailure, db0, [Event.read]) :=
  C9_null_title_server_failure db0 1 5 ⟨some none, none, none⟩ row0 (by decide) rfl

/-- C10: an update of an existing row with description explicitly null
commits a NULL description (the stored description is no longer a
string), the write persists, and the operation answers with a
server-failure response rather than a successful Todo. -/
theorem C10_null_description_persists :
    update_todo [{ id := 1, title := "a", description := some "",
                   completed := some false, created_at := 0, updated_at := 0 }] 1
        ⟨none, some none, none⟩ 5
      = (Resp.serverFailure,
         [{ id := 1, title := "a", description := none, completed := some false,
            created_at := 0, updated_at := 5 }],
         [Event.read, Event.write, Event.read]) ∧
    (findTodo [{ id := 1, title := "a", description := none,
                 completed := some false, created_at := 0, updated_at := 5 }] 1).map
        TodoDB.description = some none := by decide

end TodoApp
